import Mathlib

/-!
Shallow embedding of the FlappyBirb pure game core.

Sources embedded here:
* `src/types.ts`   — the constant tables and the `Pipe`, `Ghost`, `State` types.
* `src/util.ts`    — the seeded RNG (`RNG.hash`, `RNG.scale`, `rand`, `randBetween`).
* the unnamed pure-state module — `initialState`, `moveBird`, `movePipes`,
  `checkPipes`, `parsePipeCSV`, `restartGame`, `birdFlap`, `tick`.
* `src/main.ts`    — the input reducer `flapR`.

Modelling conventions:
* JavaScript numbers are modelled as exact rationals (`ℚ`).  Every arithmetic
  operation the game state performs on reachable values (sums and differences
  of dyadic rationals far below 2^53) is exact in IEEE-754 double precision,
  so `ℚ` agrees with the runtime there.  The one place where double rounding
  is observable is the RNG hash, whose intermediate product `a * seed` exceeds
  2^53: there we model the rounding explicitly (`roundDouble`).
* Integer-valued fields (`lives`, `score`, `tickCount`, `invulnUntil`) are
  modelled as `ℤ`, and the RNG seed (always a nonnegative integer below 2^31
  produced by `%`) as `ℕ`.
-/

namespace FlappyBirb

/-! ### Constants (src/types.ts) -/

namespace Viewport

def CANVAS_WIDTH : ℚ := 600

def CANVAS_HEIGHT : ℚ := 400

end Viewport

namespace Birb

def WIDTH : ℚ := 42

def HEIGHT : ℚ := 30

end Birb

namespace Constants

def PIPE_WIDTH : ℚ := 50

def TICK_RATE_MS : ℚ := 20

end Constants

namespace Physics

def GRAVITY : ℚ := 1/2

def FLAP_FORCE : ℚ := -(11/2)

def MAX_VELOCITY : ℚ := 10

def PIPE_SPEED : ℚ := 5

end Physics

/-! ### Core game types (src/types.ts) -/

/-- `Pipe`: vertical obstacle with a gap. -/
structure Pipe where
  x : ℚ
  gapY : ℚ
  gapHeight : ℚ
  passed : Bool
deriving DecidableEq, Repr

/-- `Ghost`: per-run visual replay actor (`y = none` models JS `null`). -/
structure Ghost where
  id : ℤ
  y : Option ℚ
  active : Bool
deriving DecidableEq, Repr

/-- `State`: immutable game model. -/
structure State where
  birdY : ℚ
  birdVY : ℚ
  pipes : List Pipe
  lives : ℤ
  score : ℤ
  gameEnd : Bool
  paused : Bool
  rngSeed : ℕ
  tickCount : ℤ
  invulnUntil : ℤ
  ghosts : List Ghost
deriving DecidableEq, Repr

/-! ### Deterministic RNG (src/util.ts)

The TypeScript source computes `(RNG.a * seed + RNG.c) % RNG.m` on JavaScript
numbers, i.e. IEEE-754 binary64 doubles.  `RNG.a` and any seed below `2^31`
are exactly representable, but the product `RNG.a * seed` can exceed `2^53`,
in which case the double multiplication returns the product rounded to the
nearest representable double (round-to-nearest, ties-to-even).  The addition
of `RNG.c` is rounded the same way, and `%` on two exactly-representable
nonnegative doubles is exact.  `roundDouble` models that rounding on
nonnegative integers: doubles in the binade `[2^e, 2^(e+1))` with `e ≥ 53`
are exactly the multiples of `2^(e-52)`. -/

/-- Binary length (number of binary digits) of `n`, with explicit fuel so the
recursion is structural; `bitLenAux fuel n` is the bit length for every
`n < 2^fuel`. -/
def bitLenAux : ℕ → ℕ → ℕ
  | 0, _ => 0
  | fuel + 1, n => if n = 0 then 0 else bitLenAux fuel (n / 2) + 1

/-- Bit length of a natural number below `2^64` — enough for every value the
RNG hash can produce (`a * seed + c < 2^62` for seeds below `2^31`). -/
def bitLen (n : ℕ) : ℕ := bitLenAux 64 n

/-- Round a nonnegative integer to the nearest IEEE-754 binary64 double
(round-to-nearest, ties-to-even).  Integers up to `2^53` are exactly
representable and unchanged; an integer with `53 + k` bits is rounded to the
nearest multiple of `2^k`, ties going to the even multiple. -/
def roundDouble (n : ℕ) : ℕ :=
  if n ≤ 2 ^ 53 then n
  else
    let k := bitLen n - 53
    let q := n / 2 ^ k
    let r := n % 2 ^ k
    let h := 2 ^ (k - 1)
    if r < h then q * 2 ^ k
    else if h < r then (q + 1) * 2 ^ k
    else if q % 2 = 0 then q * 2 ^ k else (q + 1) * 2 ^ k

namespace RNG

def m : ℕ := 2 ^ 31

def a : ℕ := 1103515245

def c : ℕ := 12345

/-- `RNG.hash`: the source's `(RNG.a * seed + RNG.c) % RNG.m`, with the two
double roundings of JavaScript arithmetic made explicit. -/
def hash (seed : ℕ) : ℕ :=
  roundDouble (roundDouble (a * seed) + c) % m

/-- `RNG.scale`: `(2 * hash) / (m - 1) - 1`, mapping a hash into `[-1, 1]`. -/
def scale (h : ℕ) : ℚ :=
  2 * (h : ℚ) / ((m : ℚ) - 1) - 1

end RNG

/-- The exact integer linear congruential step described by the spec:
`nextSeed = (A * seed + C) mod M` in unbounded integer arithmetic. -/
def lcgExact (seed : ℕ) : ℕ :=
  (RNG.a * seed + RNG.c) % RNG.m

/-- `rand(seed)`: a value in `[0,1]` together with the next seed. -/
def rand (seed : ℕ) : ℚ × ℕ :=
  let next := RNG.hash seed
  ((RNG.scale next + 1) / 2, next)

/-- Result record of `randBetween` (`{ v, seed }` in the source). -/
structure RandResult where
  v : ℚ
  seed : ℕ
deriving DecidableEq, Repr

/-- `randBetween(seed, min, max)`: linear remap of `rand` into `[min, max]`. -/
def randBetween (seed : ℕ) (lo hi : ℚ) : RandResult :=
  let r := rand seed
  ⟨lo + (hi - lo) * r.1, r.2⟩

/-! ### Pure state module -/

/-- Number of ticks of invulnerability after hitting world bounds. -/
def INVULN_TICKS : ℤ := 15

/-- Initial immutable state. -/
def initialState : State :=
  { birdY := Viewport.CANVAS_HEIGHT / 2
    birdVY := 0
    pipes := []
    lives := 3
    score := 0
    gameEnd := false
    paused := false
    rngSeed := 123456789
    tickCount := 0
    invulnUntil := 0
    ghosts := [] }

/-- Gravity integration + boundary clamping (`moveBird`). -/
def moveBird (s : State) : State :=
  if s.gameEnd then s
  else
    let vyNext :=
      if s.birdVY + Physics.GRAVITY > Physics.MAX_VELOCITY then Physics.MAX_VELOCITY
      else s.birdVY + Physics.GRAVITY
    let yNext := s.birdY + vyNext
    let minY : ℚ := 0
    let maxY := Viewport.CANVAS_HEIGHT - Birb.HEIGHT / 2
    let birdY := if minY > yNext then minY else if maxY < yNext then maxY else yNext
    let birdVY := if birdY = minY ∨ birdY = maxY then 0 else vyNext
    { s with birdY := birdY, birdVY := birdVY }

/-- Scroll pipes left and cull off-screen (`movePipes`). -/
def movePipes (s : State) : State :=
  { s with
      pipes :=
        (s.pipes.map (fun p => { p with x := p.x - Physics.PIPE_SPEED })).filter
          (fun p => decide (p.x + Constants.PIPE_WIDTH > 0)) }

/-! Bird geometry used by `checkPipes` (the bird's x center is fixed).
In the source these are `const` locals of `checkPipes`; they are hoisted to
named definitions here.  `600 * 0.3` evaluates to exactly `180` in double
arithmetic, so the exact rational `600 * (3/10)` agrees with the runtime. -/

def birdLeftC : ℚ := Viewport.CANVAS_WIDTH * (3/10) - Birb.WIDTH / 2

def birdRightC : ℚ := Viewport.CANVAS_WIDTH * (3/10) + Birb.WIDTH / 2

def birdTopOf (s : State) : ℚ := s.birdY - Birb.HEIGHT / 2

def birdBottomOf (s : State) : ℚ := s.birdY + Birb.HEIGHT / 2

/-- `overlapsX` of `checkPipes`: the bird's horizontal band meets the pipe. -/
def overlapsXB (bl br : ℚ) (p : Pipe) : Bool :=
  decide (br ≥ p.x) && decide (bl < p.x + Constants.PIPE_WIDTH)

/-- `outsideGap` of `checkPipes`: the bird pokes outside the pipe's gap. -/
def outsideGapB (bt bb : ℚ) (p : Pipe) : Bool :=
  decide (bt < p.gapY - p.gapHeight / 2) || decide (bb > p.gapY + p.gapHeight / 2)

/-- `collided` of `checkPipes`, restricted to not-yet-passed pipes (already
passed pipes are skipped before the collision test in the source). -/
def collides (bl br bt bb : ℚ) (p : Pipe) : Bool :=
  !p.passed && (overlapsXB bl br p && outsideGapB bt bb p)

/-- The `passed` scoring condition of `checkPipes`: the bird's left has
cleared the pipe's right while the bird is inside the gap. -/
def passCond (bl bt bb : ℚ) (p : Pipe) : Bool :=
  decide (bl > p.x + Constants.PIPE_WIDTH) && !outsideGapB bt bb p

/-- How one pipe is emitted by the `checkPipes` fold: not-yet-passed pipes
satisfying the pass condition are marked `passed := true`; everything else is
forwarded unchanged. -/
def markPassed (bl bt bb : ℚ) (p : Pipe) : Pipe :=
  if !p.passed && passCond bl bt bb p then { p with passed := true } else p

/-- Accumulator of the `checkPipes` reduce (the source's local `Acc` type). -/
structure Acc where
  score : ℤ
  lives : ℤ
  vy : ℚ
  rngSeed : ℕ
  invulnUntilTick : ℤ
  gameEnd : Bool
  lostLifeThisTick : Bool
  pipes : List Pipe
deriving DecidableEq, Repr

/-- One step of the `checkPipes` reduce over the pipe list: collision, life
loss (first collision this tick only), bounce, and pass scoring. -/
def pipeStep (bl br bt bb : ℚ) (acc : Acc) (p : Pipe) : Acc :=
  if p.passed then { acc with pipes := acc.pipes ++ [p] }
  else
    let pipeRight := p.x + Constants.PIPE_WIDTH
    let gapTop := p.gapY - p.gapHeight / 2
    let collided := overlapsXB bl br p && outsideGapB bt bb p
    let hitTopHalf := decide (bt < gapTop)
    let fixedBounceV : ℚ := if hitTopHalf then 6 else -6
    let shouldLoseLife := collided && !acc.lostLifeThisTick
    let accLife :=
      if shouldLoseLife then
        { acc with
            lives := acc.lives - 1
            lostLifeThisTick := true
            gameEnd := decide (acc.lives - 1 ≤ 0) }
      else acc
    let rr :=
      if shouldLoseLife then
        randBetween accLife.rngSeed (if hitTopHalf then 4 else -8)
          (if hitTopHalf then 8 else -4)
      else ⟨accLife.vy, accLife.rngSeed⟩
    let accBounce :=
      if collided then
        { accLife with
            vy := if shouldLoseLife then rr.v else fixedBounceV
            rngSeed := rr.seed }
      else accLife
    let hasPassed := decide (bl > pipeRight) && !outsideGapB bt bb p
    { accBounce with
        pipes := accBounce.pipes ++ [if hasPassed then { p with passed := true } else p]
        score := accBounce.score + (if hasPassed then 1 else 0) }

/-- World top/bottom contact of `checkPipes`: life loss gated by the
invulnerability window and by a pipe life loss this tick; a bounce is always
applied on contact. -/
def worldStep (s : State) (bt bb : ℚ) (afterPipes : Acc) : Acc :=
  if afterPipes.gameEnd then afterPipes
  else
    let canLoseLife :=
      decide (s.tickCount ≥ afterPipes.invulnUntilTick) && !afterPipes.lostLifeThisTick
    if bt ≤ 0 then
      let lives := if canLoseLife then afterPipes.lives - 1 else afterPipes.lives
      let gameEnd := if canLoseLife && decide (lives ≤ 0) then true else afterPipes.gameEnd
      let invulnUntilTick :=
        if canLoseLife then s.tickCount + INVULN_TICKS else afterPipes.invulnUntilTick
      let rr := randBetween afterPipes.rngSeed 4 8
      { afterPipes with
          lives := lives, gameEnd := gameEnd, invulnUntilTick := invulnUntilTick
          vy := rr.v, rngSeed := rr.seed }
    else if bb ≥ Viewport.CANVAS_HEIGHT then
      let lives := if canLoseLife then afterPipes.lives - 1 else afterPipes.lives
      let gameEnd := if canLoseLife && decide (lives ≤ 0) then true else afterPipes.gameEnd
      let invulnUntilTick :=
        if canLoseLife then s.tickCount + INVULN_TICKS else afterPipes.invulnUntilTick
      let rr := randBetween afterPipes.rngSeed (-8) (-4)
      { afterPipes with
          lives := lives, gameEnd := gameEnd, invulnUntilTick := invulnUntilTick
          vy := rr.v, rngSeed := rr.seed }
    else afterPipes

/-- Collisions, scoring, and life/velocity updates (`checkPipes`). -/
def checkPipes (s : State) : State :=
  if s.pipes.length = 0 then { s with gameEnd := true }
  else
    let start : Acc :=
      { score := s.score
        lives := s.lives
        vy := s.birdVY
        rngSeed := s.rngSeed
        invulnUntilTick := s.invulnUntil
        gameEnd := false
        lostLifeThisTick := false
        pipes := [] }
    let afterPipes :=
      s.pipes.foldl (pipeStep birdLeftC birdRightC (birdTopOf s) (birdBottomOf s)) start
    let world := worldStep s (birdTopOf s) (birdBottomOf s) afterPipes
    { s with
        pipes := world.pipes
        score := world.score
        lives := world.lives
        birdVY := world.vy
        gameEnd := world.gameEnd
        rngSeed := world.rngSeed
        invulnUntil := world.invulnUntilTick }

/-! ### CSV parsing -/

/- Strings are modelled as their character lists (`String.toList`), and the
string operations the source uses (`trim`, `split`, `Number`) are given as
structurally recursive functions on `List Char`. -/

/-- The whitespace characters `String.prototype.trim` strips on the inputs
that occur here. -/
def isSpaceChar (ch : Char) : Bool :=
  ch = ' ' || ch = '\t' || ch = '\n' || ch = '\r'

/-- `trim()`: strip whitespace from both ends. -/
def trimChars (cs : List Char) : List Char :=
  ((cs.dropWhile isSpaceChar).reverse.dropWhile isSpaceChar).reverse

/-- `split(sep)` for a one-character separator: the (possibly empty) chunks
between occurrences of `sep`. -/
def splitOnChar (sep : Char) : List Char → List (List Char)
  | [] => [[]]
  | ch :: t =>
      match splitOnChar sep t with
      | [] => [[]]
      | grp :: rest => if ch = sep then [] :: grp :: rest else (ch :: grp) :: rest

/-- Split on the regex `/\r?\n/`: split at each newline, consuming one
carriage return immediately before it. -/
def splitLines (cs : List Char) : List (List Char) :=
  (splitOnChar '\n' cs).map fun l =>
    if l.getLast? = some '\r' then l.dropLast else l

/-- Is `ch` a decimal digit? -/
def isDigitChar (ch : Char) : Bool :=
  decide (48 ≤ ch.toNat) && decide (ch.toNat ≤ 57)

/-- Numeric value of a list of decimal digit characters. -/
def digitsVal (cs : List Char) : ℕ :=
  cs.foldl (fun acc ch => 10 * acc + (ch.toNat - 48)) 0

/-- Model of the JavaScript `Number(string)` coercion, restricted to the
plain unsigned decimal grammar (`digits`, `digits.digits`, `.digits`,
`digits.`, and the empty/whitespace string, which coerces to `0`).  `none`
models a non-finite result (`NaN`), which is what every other string
occurring in the schedule inputs produces; the decimal strings of the
schedule inputs here are exactly representable doubles, so the exact
rational value agrees with the runtime. -/
def jsNumber (s : List Char) : Option ℚ :=
  let t := trimChars s
  if t = [] then some 0
  else
    match splitOnChar '.' t with
    | [intPart] =>
        if intPart ≠ [] ∧ intPart.all isDigitChar then
          some (digitsVal intPart)
        else none
    | [intPart, fracPart] =>
        if (intPart ≠ [] ∨ fracPart ≠ []) ∧
            intPart.all isDigitChar ∧ fracPart.all isDigitChar then
          some ((digitsVal intPart : ℚ) +
            (digitsVal fracPart : ℚ) / (10 : ℚ) ^ fracPart.length)
        else none
    | _ => none

/-- Parse CSV into scheduled pipes at pixel coordinates (`parsePipeCSV`).
The source maps `Number` over the comma-split fields and keeps rows with
exactly three finite values; here that filter-then-destructure is a
`filterMap` on the `Option`-valued fields. -/
def parsePipeCSV (csv : String) : List Pipe :=
  ((splitLines (trimChars csv.toList)).drop 1).filterMap fun line =>
    match (splitOnChar ',' line).map jsNumber with
    | [some gapYFrac, some gapHeightFrac, some appearTimeSec] =>
        some
          { x :=
              Viewport.CANVAS_WIDTH +
                appearTimeSec * (1000 / Constants.TICK_RATE_MS) * Physics.PIPE_SPEED
            gapY := gapYFrac * Viewport.CANVAS_HEIGHT
            gapHeight := gapHeightFrac * Viewport.CANVAS_HEIGHT
            passed := false }
    | _ => none

/-- Reset to initial state while reusing the same pipe set (`restartGame`). -/
def restartGame (_s : State) (pipes : List Pipe) : State :=
  { initialState with pipes := pipes }

/-- Apply an instantaneous upward velocity (`birdFlap`). -/
def birdFlap (s : State) : State :=
  { s with birdVY := Physics.FLAP_FORCE }

/-- One discrete time-step composed of pure sub-reducers (`tick`). -/
def tick (s : State) : State :=
  if s.gameEnd || s.paused then s
  else
    let advanced := movePipes (moveBird s)
    let afterCollisions := checkPipes advanced
    { afterCollisions with tickCount := s.tickCount + 1 }

/-- `flapR` (src/main.ts): apply an upward impulse only during play;
flaps are ignored once the game has ended. -/
def flapR (s : State) : State :=
  if s.gameEnd then s else birdFlap s

/-- Shorthand: does pipe `p` collide with the bird of state `s`? -/
def collidesWith (s : State) (p : Pipe) : Bool :=
  collides birdLeftC birdRightC (birdTopOf s) (birdBottomOf s) p

/-- World-boundary contact of state `s` (top or bottom). -/
def worldContact (s : State) : Prop :=
  birdTopOf s ≤ 0 ∨ birdBottomOf s ≥ Viewport.CANVAS_HEIGHT

instance (s : State) : Decidable (worldContact s) := by
  unfold worldContact; infer_instance

/-! ### Structural lemmas about the `checkPipes` fold -/

section PipeFold

variable (bl br bt bb : ℚ)

theorem pipeStep_pipes (acc : Acc) (p : Pipe) :
    (pipeStep bl br bt bb acc p).pipes = acc.pipes ++ [markPassed bl bt bb p] := by
  unfold pipeStep markPassed passCond
  cases hp : p.passed <;> simp [hp]
  split_ifs <;> simp_all

theorem pipeStep_score (acc : Acc) (p : Pipe) :
    (pipeStep bl br bt bb acc p).score =
      acc.score + (if !p.passed && passCond bl bt bb p then 1 else 0) := by
  unfold pipeStep passCond
  cases hp : p.passed <;> simp [hp]
  split_ifs <;> simp_all

theorem pipeStep_flag (acc : Acc) (p : Pipe) :
    (pipeStep bl br bt bb acc p).lostLifeThisTick =
      (acc.lostLifeThisTick || collides bl br bt bb p) := by
  unfold pipeStep collides
  cases hp : p.passed <;> simp [hp]
  cases hc1 : overlapsXB bl br p <;> cases hc2 : outsideGapB bt bb p <;>
    cases hl : acc.lostLifeThisTick <;> simp [hc1, hc2, hl]

theorem pipeStep_lives (acc : Acc) (p : Pipe) :
    (pipeStep bl br bt bb acc p).lives =
      if collides bl br bt bb p && !acc.lostLifeThisTick then acc.lives - 1
      else acc.lives := by
  unfold pipeStep collides
  cases hp : p.passed <;> simp [hp]
  cases hc1 : overlapsXB bl br p <;> cases hc2 : outsideGapB bt bb p <;>
    cases hl : acc.lostLifeThisTick <;> simp [hc1, hc2, hl]

theorem pipeStep_invuln (acc : Acc) (p : Pipe) :
    (pipeStep bl br bt bb acc p).invulnUntilTick = acc.invulnUntilTick := by
  unfold pipeStep
  cases hp : p.passed <;> simp [hp]
  split_ifs <;> simp_all

theorem pipeStep_gameEnd (acc : Acc) (p : Pipe) :
    (pipeStep bl br bt bb acc p).gameEnd =
      if collides bl br bt bb p && !acc.lostLifeThisTick then decide (acc.lives - 1 ≤ 0)
      else acc.gameEnd := by
  unfold pipeStep collides
  cases hp : p.passed <;> simp [hp]
  cases hc1 : overlapsXB bl br p <;> cases hc2 : outsideGapB bt bb p <;>
    cases hl : acc.lostLifeThisTick <;> simp [hc1, hc2, hl]

theorem foldl_pipeStep_pipes (l : List Pipe) (acc : Acc) :
    (l.foldl (pipeStep bl br bt bb) acc).pipes =
      acc.pipes ++ l.map (markPassed bl bt bb) := by
  induction l generalizing acc with
  | nil => simp
  | cons p t ih => simp [List.foldl_cons, ih, pipeStep_pipes]

theorem foldl_pipeStep_score (l : List Pipe) (acc : Acc) :
    (l.foldl (pipeStep bl br bt bb) acc).score =
      acc.score + (l.countP (fun p => !p.passed && passCond bl bt bb p) : ℤ) := by
  induction l generalizing acc with
  | nil => simp
  | cons p t ih =>
      simp only [List.foldl_cons, ih, pipeStep_score, List.countP_cons]
      by_cases h : (!p.passed && passCond bl bt bb p) = true <;> simp [h] <;> ring

theorem foldl_pipeStep_flag (l : List Pipe) (acc : Acc) :
    (l.foldl (pipeStep bl br bt bb) acc).lostLifeThisTick =
      (acc.lostLifeThisTick || l.any (collides bl br bt bb)) := by
  induction l generalizing acc with
  | nil => simp
  | cons p t ih =>
      simp [List.foldl_cons, ih, pipeStep_flag, Bool.or_assoc]

theorem foldl_pipeStep_invuln (l : List Pipe) (acc : Acc) :
    (l.foldl (pipeStep bl br bt bb) acc).invulnUntilTick = acc.invulnUntilTick := by
  induction l generalizing acc with
  | nil => simp
  | cons p t ih => simp [List.foldl_cons, ih, pipeStep_invuln]

theorem foldl_pipeStep_lives (l : List Pipe) (acc : Acc) :
    (l.foldl (pipeStep bl br bt bb) acc).lives =
      if !acc.lostLifeThisTick && l.any (collides bl br bt bb) then acc.lives - 1
      else acc.lives := by
  induction l generalizing acc with
  | nil => simp
  | cons p t ih =>
      simp only [List.foldl_cons, ih, pipeStep_flag, pipeStep_lives, List.any_cons]
      by_cases hl : acc.lostLifeThisTick = true <;>
        by_cases hc : collides bl br bt bb p = true <;>
        by_cases ht : t.any (collides bl br bt bb) = true <;>
        simp [hl, hc, ht]

theorem foldl_pipeStep_gameEnd (l : List Pipe) (acc : Acc) :
    (l.foldl (pipeStep bl br bt bb) acc).gameEnd =
      if !acc.lostLifeThisTick && l.any (collides bl br bt bb) then
        decide (acc.lives - 1 ≤ 0)
      else acc.gameEnd := by
  induction l generalizing acc with
  | nil => simp
  | cons p t ih =>
      simp only [List.foldl_cons, ih, pipeStep_flag, pipeStep_lives, pipeStep_gameEnd,
        List.any_cons]
      by_cases hl : acc.lostLifeThisTick = true <;>
        by_cases hc : collides bl br bt bb p = true <;>
        by_cases ht : t.any (collides bl br bt bb) = true <;>
        simp [hl, hc, ht]

end PipeFold

/-! ### Structural lemmas about the world-boundary step -/

theorem worldStep_pipes (s : State) (bt bb : ℚ) (a : Acc) :
    (worldStep s bt bb a).pipes = a.pipes := by
  unfold worldStep; split_ifs <;> rfl

theorem worldStep_score (s : State) (bt bb : ℚ) (a : Acc) :
    (worldStep s bt bb a).score = a.score := by
  unfold worldStep; split_ifs <;> rfl

theorem worldStep_lives (s : State) (bt bb : ℚ) (a : Acc) :
    (worldStep s bt bb a).lives =
      if a.gameEnd then a.lives
      else if (bt ≤ 0 ∨ bb ≥ Viewport.CANVAS_HEIGHT) ∧
          (a.invulnUntilTick ≤ s.tickCount ∧ a.lostLifeThisTick = false) then a.lives - 1
      else a.lives := by
  unfold worldStep
  by_cases hg : a.gameEnd = true
  · simp [hg]
  · by_cases hf : a.lostLifeThisTick = true <;>
      by_cases hi : a.invulnUntilTick ≤ s.tickCount <;>
      by_cases h1 : bt ≤ 0 <;> by_cases h2 : bb ≥ Viewport.CANVAS_HEIGHT <;>
      simp [hg, hf, hi, h1, h2, ge_iff_le]

theorem worldStep_invuln (s : State) (bt bb : ℚ) (a : Acc) :
    (worldStep s bt bb a).invulnUntilTick =
      if a.gameEnd then a.invulnUntilTick
      else if (bt ≤ 0 ∨ bb ≥ Viewport.CANVAS_HEIGHT) ∧
          (a.invulnUntilTick ≤ s.tickCount ∧ a.lostLifeThisTick = false) then
        s.tickCount + INVULN_TICKS
      else a.invulnUntilTick := by
  unfold worldStep
  by_cases hg : a.gameEnd = true
  · simp [hg]
  · by_cases hf : a.lostLifeThisTick = true <;>
      by_cases hi : a.invulnUntilTick ≤ s.tickCount <;>
      by_cases h1 : bt ≤ 0 <;> by_cases h2 : bb ≥ Viewport.CANVAS_HEIGHT <;>
      simp [hg, hf, hi, h1, h2, ge_iff_le]

/-! ### Field-level description of `checkPipes` on a non-empty pipe list -/

theorem checkPipes_pipes (s : State) (h : s.pipes ≠ []) :
    (checkPipes s).pipes =
      s.pipes.map (markPassed birdLeftC (birdTopOf s) (birdBottomOf s)) := by
  unfold checkPipes
  rw [if_neg (by simpa using h)]
  simp [worldStep_pipes, foldl_pipeStep_pipes]

theorem checkPipes_score (s : State) (h : s.pipes ≠ []) :
    (checkPipes s).score =
      s.score +
        (s.pipes.countP
          (fun p => !p.passed && passCond birdLeftC (birdTopOf s) (birdBottomOf s) p) : ℤ) := by
  unfold checkPipes
  rw [if_neg (by simpa using h)]
  simp [worldStep_score, foldl_pipeStep_score]

theorem checkPipes_lives (s : State) (h : s.pipes ≠ []) :
    (checkPipes s).lives =
      if s.pipes.any (collidesWith s) then s.lives - 1
      else if worldContact s ∧ s.invulnUntil ≤ s.tickCount then s.lives - 1
      else s.lives := by
  unfold checkPipes
  rw [if_neg (by simpa using h)]
  simp only [worldStep_lives, foldl_pipeStep_lives, foldl_pipeStep_flag,
    foldl_pipeStep_gameEnd, foldl_pipeStep_invuln]
  rw [show s.pipes.any (collides birdLeftC birdRightC (birdTopOf s) (birdBottomOf s)) =
    s.pipes.any (collidesWith s) from rfl]
  by_cases hA : s.pipes.any (collidesWith s) = true
  · by_cases hE : s.lives - 1 ≤ 0 <;>
      by_cases hi : s.invulnUntil ≤ s.tickCount <;>
      by_cases h1 : birdTopOf s ≤ 0 <;> by_cases h2 : birdBottomOf s ≥ Viewport.CANVAS_HEIGHT <;>
      simp [-List.any_eq_true, worldContact, hA, hE, hi, h1, h2]
  · by_cases hi : s.invulnUntil ≤ s.tickCount <;>
      by_cases h1 : birdTopOf s ≤ 0 <;> by_cases h2 : birdBottomOf s ≥ Viewport.CANVAS_HEIGHT <;>
      simp [-List.any_eq_true, worldContact, hA, hi, h1, h2]

theorem checkPipes_invuln (s : State) (h : s.pipes ≠ []) :
    (checkPipes s).invulnUntil =
      if s.pipes.any (collidesWith s) then s.invulnUntil
      else if worldContact s ∧ s.invulnUntil ≤ s.tickCount then s.tickCount + INVULN_TICKS
      else s.invulnUntil := by
  unfold checkPipes
  rw [if_neg (by simpa using h)]
  simp only [worldStep_invuln, foldl_pipeStep_lives, foldl_pipeStep_flag,
    foldl_pipeStep_gameEnd, foldl_pipeStep_invuln]
  rw [show s.pipes.any (collides birdLeftC birdRightC (birdTopOf s) (birdBottomOf s)) =
    s.pipes.any (collidesWith s) from rfl]
  by_cases hA : s.pipes.any (collidesWith s) = true
  · by_cases hE : s.lives - 1 ≤ 0 <;>
      by_cases hi : s.invulnUntil ≤ s.tickCount <;>
      by_cases h1 : birdTopOf s ≤ 0 <;> by_cases h2 : birdBottomOf s ≥ Viewport.CANVAS_HEIGHT <;>
      simp [-List.any_eq_true, worldContact, hA, hE, hi, h1, h2]
  · by_cases hi : s.invulnUntil ≤ s.tickCount <;>
      by_cases h1 : birdTopOf s ≤ 0 <;> by_cases h2 : birdBottomOf s ≥ Viewport.CANVAS_HEIGHT <;>
      simp [-List.any_eq_true, worldContact, hA, hi, h1, h2]

theorem checkPipes_empty (s : State) (h : s.pipes = []) :
    checkPipes s = { s with gameEnd := true } := by
  unfold checkPipes
  rw [if_pos (by simp [h])]

/-! ### Generic helper lemmas -/

theorem roundDouble_of_le (n : ℕ) (h : n ≤ 2 ^ 53) : roundDouble n = n := by
  unfold roundDouble
  rw [if_pos h]

theorem forall2_map_self {r : Pipe → Pipe → Prop} (f : Pipe → Pipe) :
    ∀ l : List Pipe, (∀ p ∈ l, r p (f p)) → List.Forall₂ r l (l.map f) := by
  intro l
  induction l with
  | nil => intro; simp
  | cons p t ih =>
      intro hmem
      simp only [List.map_cons]
      exact List.Forall₂.cons (hmem p (by simp)) (ih fun q hq => hmem q (by simp [hq]))

theorem zip_map_countP (f : Pipe → Pipe) (g : Pipe × Pipe → Bool) :
    ∀ l : List Pipe, (l.zip (l.map f)).countP g = l.countP (fun p => g (p, f p)) := by
  intro l
  induction l with
  | nil => rfl
  | cons p t ih => simp [List.countP_cons, ih]

theorem markPassed_passed_eq (bl bt bb : ℚ) (p : Pipe) :
    (!p.passed && (markPassed bl bt bb p).passed) = (!p.passed && passCond bl bt bb p) := by
  unfold markPassed
  cases hp : p.passed <;> by_cases hc : passCond bl bt bb p = true <;> simp [hp, hc]

/-! ### Sample inputs used by the witnesses -/

/-- A pipe far to the right of the bird: no collision, no pass. -/
def pipeFar : Pipe := { x := 1000, gapY := 200, gapHeight := 100, passed := false }

/-- A pipe overlapping the bird horizontally with a gap that excludes the
bird vertically: a collision. -/
def pipeHit : Pipe := { x := 159, gapY := 200, gapHeight := 20, passed := false }

/-- A pipe to the left of the bird with the bird inside its gap: a pass. -/
def pipePassNow : Pipe := { x := 100, gapY := 200, gapHeight := 100, passed := false }

/-- A state in which two pipes collide with the bird simultaneously. -/
def sTwoHits : State := { initialState with pipes := [pipeHit, pipeHit] }

/-- A state touching the bottom world boundary with a far-away pipe. -/
def sBottom : State := { initialState with birdY := 390, pipes := [pipeFar], tickCount := 10 }

/-- `sBottom` a few ticks later, inside the invulnerability window opened by
the boundary life loss of `sBottom`. -/
def sBottom2 : State := { sBottom with tickCount := 20, invulnUntil := 25 }

/-- A state about to pass a pipe. -/
def sPass : State := { initialState with pipes := [pipePassNow] }

/-- A state with a far pipe and a colliding pipe, used to observe the frame
effect. -/
def sFrame : State := { initialState with pipes := [pipeFar, pipeHit] }

/-! ### Claim theorems -/

/-- C1: a single `checkPipes` call decrements `lives` by at most one
(`checkPipes(s).lives ≥ s.lives - 1` and never more than `s.lives`), and for
a state in which at least two non-passed obstacles simultaneously collide
with the bird, exactly one life is deducted by that call — a world-boundary
contact in the same call deducts no additional life. -/
theorem checkPipes_single_life_loss (s : State) :
    s.lives - 1 ≤ (checkPipes s).lives ∧ (checkPipes s).lives ≤ s.lives ∧
      (2 ≤ s.pipes.countP (collidesWith s) → (checkPipes s).lives = s.lives - 1) := by
  rcases eq_or_ne s.pipes ([] : List Pipe) with h | h
  · rw [checkPipes_empty s h]
    refine ⟨?_, ?_, ?_⟩
    · show s.lives - 1 ≤ s.lives
      omega
    · show s.lives ≤ s.lives
      omega
    · intro h2
      rw [h] at h2
      simp [List.countP_nil] at h2
  · have hl := checkPipes_lives s h
    refine ⟨?_, ?_, ?_⟩
    · rw [hl]; split_ifs <;> omega
    · rw [hl]; split_ifs <;> omega
    · intro h2
      have hA : s.pipes.any (collidesWith s) = true := by
        rcases List.countP_pos_iff.mp (show 0 < s.pipes.countP (collidesWith s) by omega) with
          ⟨p, hpmem, hcp⟩
        exact List.any_eq_true.mpr ⟨p, hpmem, hcp⟩
      rw [hl, if_pos hA]

/-- Witness for C1 at a concrete state with two simultaneously colliding
pipes: exactly one life is lost. -/
theorem checkPipes_single_life_loss_witness :
    2 ≤ sTwoHits.pipes.countP (collidesWith sTwoHits) ∧
      (checkPipes sTwoHits).lives = sTwoHits.lives - 1 := by
  have h2 : 2 ≤ sTwoHits.pipes.countP (collidesWith sTwoHits) := by
    norm_num [sTwoHits, pipeHit, initialState, List.countP_cons, collidesWith, collides,
      overlapsXB, outsideGapB, birdLeftC, birdRightC, birdTopOf, birdBottomOf,
      Viewport.CANVAS_WIDTH, Viewport.CANVAS_HEIGHT, Birb.WIDTH, Birb.HEIGHT,
      Constants.PIPE_WIDTH]
  exact ⟨h2, (checkPipes_single_life_loss sTwoHits).2.2 h2⟩

/-- C2 as stated is false: for `birdY = 0` and `-GRAVITY < birdVY < 0` the
gravity step makes the new velocity positive, so the bird leaves the top
edge instead of staying clamped at `birdY = 0`. -/
theorem moveBird_clamp_counterexample :
    ({ initialState with birdY := 0, birdVY := -(1/4) } : State).birdY = 0 ∧
      ({ initialState with birdY := 0, birdVY := -(1/4) } : State).birdVY < 0 ∧
      ({ initialState with birdY := 0, birdVY := -(1/4) } : State).gameEnd = false ∧
      (moveBird { initialState with birdY := 0, birdVY := -(1/4) }).birdY ≠ 0 := by
  refine ⟨rfl, by norm_num [initialState], rfl, ?_⟩
  norm_num [moveBird, initialState, Physics.GRAVITY, Physics.MAX_VELOCITY,
    Viewport.CANVAS_HEIGHT, Birb.HEIGHT]

/-- C2 (amended): for every state with `gameEnd = false`: if `birdY = 0` and
`birdVY ≤ -GRAVITY`, `moveBird` yields `birdY = 0` and `birdVY = 0`; if
`birdY = viewportHeight` and `birdVY > 0`, it yields
`birdY = viewportHeight - birdHalfHeight` and `birdVY = 0`. -/
theorem moveBird_clamp (s : State) (hg : s.gameEnd = false) :
    (s.birdY = 0 → s.birdVY ≤ -Physics.GRAVITY →
      (moveBird s).birdY = 0 ∧ (moveBird s).birdVY = 0) ∧
    (s.birdY = Viewport.CANVAS_HEIGHT → 0 < s.birdVY →
      (moveBird s).birdY = Viewport.CANVAS_HEIGHT - Birb.HEIGHT / 2 ∧
        (moveBird s).birdVY = 0) := by
  constructor
  · intro h0 hv
    rw [show -Physics.GRAVITY = -(1/2 : ℚ) from rfl] at hv
    simp only [moveBird, hg, Bool.false_eq_true, if_false, h0, Physics.GRAVITY,
      Physics.MAX_VELOCITY, Viewport.CANVAS_HEIGHT, Birb.HEIGHT]
    norm_num
    split_ifs <;> norm_num
    all_goals try constructor
    all_goals intros
    all_goals linarith
  · intro h0 hv
    simp only [moveBird, hg, Bool.false_eq_true, if_false, h0, Physics.GRAVITY,
      Physics.MAX_VELOCITY, Viewport.CANVAS_HEIGHT, Birb.HEIGHT]
    norm_num
    split_ifs <;> norm_num
    all_goals try constructor
    all_goals intros
    all_goals linarith

/-- Witness for the amended C2 at two concrete states. -/
theorem moveBird_clamp_witness :
    ((moveBird { initialState with birdY := 0, birdVY := -5 }).birdY = 0 ∧
      (moveBird { initialState with birdY := 0, birdVY := -5 }).birdVY = 0) ∧
    ((moveBird { initialState with birdY := 400, birdVY := 3 }).birdY =
        Viewport.CANVAS_HEIGHT - Birb.HEIGHT / 2 ∧
      (moveBird { initialState with birdY := 400, birdVY := 3 }).birdVY = 0) := by
  constructor
  · exact (moveBird_clamp { initialState with birdY := 0, birdVY := -5 } rfl).1 rfl
      (by norm_num [Physics.GRAVITY])
  · exact (moveBird_clamp { initialState with birdY := 400, birdVY := 3 } rfl).2
      (by norm_num [Viewport.CANVAS_HEIGHT]) (by norm_num)

/-- C3 as stated is false: already at the initial seed `123456789` the
double-precision product `RNG.a * seed` exceeds `2^53`, is rounded, and the
hash differs from the exact integer linear congruential value. -/
theorem hash_exact_counterexample :
    (123456789 : ℕ) < 2 ^ 31 ∧ RNG.hash 123456789 ≠ lcgExact 123456789 := by
  constructor
  · decide
  · decide

/-- C3 (amended): `RNG.hash seed` equals the exact linear congruential value
`(A * seed + C) mod 2^31` exactly when the integer `A * seed + C` stays
within the 53-bit exactly-representable range of doubles; beyond it
(including the initial seed) the rounded product diverges.  `randBetween`
stays a pure function of its arguments either way. -/
theorem hash_exact_of_small_seed (seed : ℕ) (h : RNG.a * seed + RNG.c ≤ 2 ^ 53) :
    RNG.hash seed = lcgExact seed := by
  have h1 : RNG.a * seed ≤ 2 ^ 53 := le_trans (Nat.le_add_right _ _) h
  unfold RNG.hash lcgExact
  rw [roundDouble_of_le _ h1, roundDouble_of_le _ h]

/-- Witness for the amended C3 at a small concrete seed. -/
theorem hash_exact_of_small_seed_witness :
    RNG.a * 1000 + RNG.c ≤ 2 ^ 53 ∧ RNG.hash 1000 = lcgExact 1000 :=
  ⟨by decide, hash_exact_of_small_seed 1000 (by decide)⟩

/-- C4: a world-boundary life loss at tick `T` (no obstacle collision, the
invulnerability window expired) sets `invulnUntil = T + 15` and deducts the
life; on any later state inside that window (`T ≤ T' < T + 15`, carrying the
produced `invulnUntil`), a boundary contact with no obstacle collision
leaves `lives` unchanged. -/
theorem checkPipes_invuln_window (s s2 : State)
    (hne : s.pipes ≠ [])
    (hnc : s.pipes.any (collidesWith s) = false)
    (hct : worldContact s)
    (hinv : s.invulnUntil ≤ s.tickCount)
    (h2inv : s2.invulnUntil = s.tickCount + INVULN_TICKS)
    (h2lo : s.tickCount ≤ s2.tickCount)
    (h2hi : s2.tickCount < s.tickCount + INVULN_TICKS)
    (hnc2 : s2.pipes.any (collidesWith s2) = false)
    (hct2 : worldContact s2) :
    (checkPipes s).invulnUntil = s.tickCount + INVULN_TICKS ∧
      (checkPipes s).lives = s.lives - 1 ∧
      (checkPipes s2).lives = s2.lives := by
  have hI := checkPipes_invuln s hne
  rw [hnc] at hI
  simp only [Bool.false_eq_true, if_false] at hI
  rw [if_pos ⟨hct, hinv⟩] at hI
  have hL := checkPipes_lives s hne
  rw [hnc] at hL
  simp only [Bool.false_eq_true, if_false] at hL
  rw [if_pos ⟨hct, hinv⟩] at hL
  refine ⟨hI, hL, ?_⟩
  rcases eq_or_ne s2.pipes ([] : List Pipe) with h2 | h2
  · rw [checkPipes_empty s2 h2]
  · have hL2 := checkPipes_lives s2 h2
    rw [hnc2] at hL2
    simp only [Bool.false_eq_true, if_false] at hL2
    rw [if_neg (fun hcc => by omega)] at hL2
    exact hL2

/-- Witness for C4: a bottom-boundary hit at tick 10 with a far pipe, then
the same contact at tick 20 inside the window `[10, 25)`. -/
theorem checkPipes_invuln_window_witness :
    (checkPipes sBottom).invulnUntil = sBottom.tickCount + INVULN_TICKS ∧
      (checkPipes sBottom).lives = sBottom.lives - 1 ∧
      (checkPipes sBottom2).lives = sBottom2.lives := by
  refine checkPipes_invuln_window sBottom sBottom2 ?_ ?_ ?_ ?_ ?_ ?_ ?_ ?_ ?_
  · simp [sBottom, initialState]
  · norm_num [sBottom, pipeFar, initialState, collidesWith, collides, overlapsXB,
      outsideGapB, birdLeftC, birdRightC, birdTopOf, birdBottomOf,
      Viewport.CANVAS_WIDTH, Viewport.CANVAS_HEIGHT, Birb.WIDTH, Birb.HEIGHT,
      Constants.PIPE_WIDTH]
  · right
    norm_num [sBottom, initialState, birdBottomOf, Viewport.CANVAS_HEIGHT, Birb.HEIGHT]
  · norm_num [sBottom, initialState]
  · norm_num [sBottom, sBottom2, initialState, INVULN_TICKS]
  · norm_num [sBottom, sBottom2, initialState]
  · norm_num [sBottom, sBottom2, initialState, INVULN_TICKS]
  · norm_num [sBottom, sBottom2, pipeFar, initialState, collidesWith, collides, overlapsXB,
      outsideGapB, birdLeftC, birdRightC, birdTopOf, birdBottomOf,
      Viewport.CANVAS_WIDTH, Viewport.CANVAS_HEIGHT, Birb.WIDTH, Birb.HEIGHT,
      Constants.PIPE_WIDTH]
  · right
    norm_num [sBottom, sBottom2, initialState, birdBottomOf, Viewport.CANVAS_HEIGHT,
      Birb.HEIGHT]

/-- C5: `checkPipes` adds to the score exactly the number of obstacles whose
`passed` flag flips from false to true in that call, never clears a `passed`
flag, and therefore never decreases the score. -/
theorem checkPipes_scoring (s : State) (h : s.pipes ≠ []) :
    (checkPipes s).score =
      s.score + ((s.pipes.zip (checkPipes s).pipes).countP
        (fun pq => !pq.1.passed && pq.2.passed) : ℤ) ∧
    List.Forall₂ (fun p q => p.passed = true → q.passed = true)
      s.pipes (checkPipes s).pipes ∧
    s.score ≤ (checkPipes s).score := by
  have hp := checkPipes_pipes s h
  have hs := checkPipes_score s h
  refine ⟨?_, ?_, ?_⟩
  · rw [hs, hp, zip_map_countP]
    simp only [markPassed_passed_eq]
  · rw [hp]
    exact forall2_map_self _ _ (fun p hmem => by
      unfold markPassed; split_ifs <;> simp_all)
  · rw [hs]
    omega

/-- Witness for C5 at a concrete state in which one pipe is passed. -/
theorem checkPipes_scoring_witness :
    (checkPipes sPass).score =
      sPass.score + ((sPass.pipes.zip (checkPipes sPass).pipes).countP
        (fun pq => !pq.1.passed && pq.2.passed) : ℤ) ∧
    List.Forall₂ (fun p q => p.passed = true → q.passed = true)
      sPass.pipes (checkPipes sPass).pipes ∧
    sPass.score ≤ (checkPipes sPass).score :=
  checkPipes_scoring sPass (by simp [sPass])

/-- C6: the flap reducer sets `birdVY` to `FLAP_FORCE = -5.5` on every state
whose run has not ended — paused or not — and returns an ended state
unchanged. -/
theorem flapR_spec (s : State) :
    flapR s = (if s.gameEnd then s else { s with birdVY := Physics.FLAP_FORCE }) ∧
      Physics.FLAP_FORCE = -(11/2) :=
  ⟨by unfold flapR birdFlap; rfl, rfl⟩

/-- C7: the two-row schedule parses to exactly the two claimed obstacles, in
row order. -/
theorem parsePipeCSV_concrete :
    parsePipeCSV "gap_y,gap_height,time\n0.5,0.25,2\n0.25,0.5,1" =
      [{ x := 1100, gapY := 200, gapHeight := 100, passed := false },
       { x := 850, gapY := 100, gapHeight := 200, passed := false }] := by
  unfold parsePipeCSV
  rw [show "gap_y,gap_height,time\n0.5,0.25,2\n0.25,0.5,1".toList =
    ['g','a','p','_','y',',','g','a','p','_','h','e','i','g','h','t',',','t','i','m','e','\n',
     '0','.','5',',','0','.','2','5',',','2','\n','0','.','2','5',',','0','.','5',',','1']
    from rfl]
  rw [show splitLines (trimChars
    ['g','a','p','_','y',',','g','a','p','_','h','e','i','g','h','t',',','t','i','m','e','\n',
     '0','.','5',',','0','.','2','5',',','2','\n','0','.','2','5',',','0','.','5',',','1']) =
    [['g','a','p','_','y',',','g','a','p','_','h','e','i','g','h','t',',','t','i','m','e'],
     ['0','.','5',',','0','.','2','5',',','2'],
     ['0','.','2','5',',','0','.','5',',','1']] from by decide]
  norm_num +decide [List.filterMap_cons, List.filterMap_nil, splitOnChar, jsNumber, trimChars,
    isSpaceChar, isDigitChar, digitsVal,
    Viewport.CANVAS_WIDTH, Viewport.CANVAS_HEIGHT, Constants.TICK_RATE_MS, Physics.PIPE_SPEED,
    show ('0'.toNat) = 48 from rfl, show ('1'.toNat) = 49 from rfl,
    show ('2'.toNat) = 50 from rfl, show ('5'.toNat) = 53 from rfl]

/-- C8: `tick` is the identity on every ended or paused state, including
`tickCount`. -/
theorem tick_absorbing (s : State) (h : s.gameEnd = true ∨ s.paused = true) :
    tick s = s := by
  unfold tick
  rcases h with h | h <;> simp [h]

/-- Witness for C8 at a concrete paused state and a concrete ended state. -/
theorem tick_absorbing_witness :
    tick { initialState with paused := true } = { initialState with paused := true } ∧
      tick { initialState with gameEnd := true } = { initialState with gameEnd := true } :=
  ⟨tick_absorbing _ (Or.inr rfl), tick_absorbing _ (Or.inl rfl)⟩

/-- C9: `checkPipes` emits exactly one output obstacle per input obstacle,
in order, equal to it in `x`, `gapY` and `gapHeight` and differing at most
in `passed` flipping from false to true — it never removes, reorders, or
repositions obstacles. -/
theorem checkPipes_frame_effect (s : State) (h : s.pipes ≠ []) :
    (checkPipes s).pipes.length = s.pipes.length ∧
    List.Forall₂
      (fun p q => q.x = p.x ∧ q.gapY = p.gapY ∧ q.gapHeight = p.gapHeight ∧
        (p.passed = true → q.passed = true))
      s.pipes (checkPipes s).pipes := by
  have hp := checkPipes_pipes s h
  refine ⟨by rw [hp, List.length_map], ?_⟩
  rw [hp]
  exact forall2_map_self _ _ (fun p hmem => by
    unfold markPassed; split_ifs <;> simp_all)

/-- Witness for C9 at a concrete two-pipe state. -/
theorem checkPipes_frame_effect_witness :
    (checkPipes sFrame).pipes.length = sFrame.pipes.length ∧
    List.Forall₂
      (fun p q => q.x = p.x ∧ q.gapY = p.gapY ∧ q.gapHeight = p.gapHeight ∧
        (p.passed = true → q.passed = true))
      sFrame.pipes (checkPipes sFrame).pipes :=
  checkPipes_frame_effect sFrame (by simp [sFrame])

/-- C10: a data row of three empty fields is not skipped — `Number("")` is
the finite number 0 — so `"gap_y,gap_height,time\n,,"` parses to the single
obstacle `x = 600, gapY = 0, gapHeight = 0, passed = false`. -/
theorem parsePipeCSV_empty_fields_row :
    parsePipeCSV "gap_y,gap_height,time\n,," =
      [{ x := 600, gapY := 0, gapHeight := 0, passed := false }] := by
  unfold parsePipeCSV
  rw [show "gap_y,gap_height,time\n,,".toList =
    ['g','a','p','_','y',',','g','a','p','_','h','e','i','g','h','t',',','t','i','m','e','\n',
     ',',','] from rfl]
  rw [show splitLines (trimChars
    ['g','a','p','_','y',',','g','a','p','_','h','e','i','g','h','t',',','t','i','m','e','\n',
     ',',',']) =
    [['g','a','p','_','y',',','g','a','p','_','h','e','i','g','h','t',',','t','i','m','e'],
     [',',',']] from by decide]
  norm_num +decide [List.filterMap_cons, List.filterMap_nil, splitOnChar, jsNumber, trimChars,
    isSpaceChar, isDigitChar, digitsVal,
    Viewport.CANVAS_WIDTH, Viewport.CANVAS_HEIGHT, Constants.TICK_RATE_MS, Physics.PIPE_SPEED]

end FlappyBirb
